import Mathlib

/-!
# Verification of the progressive panorama texture-loading pipeline

Shallow embedding of the core of the repository:

* `src/utils/textureLoader.ts` — tile path generation (`getTilePaths`),
  tiled face composition (`loadTiledTexture`) and cubemap assembly
  (`loadCubemapTextures`);
* `src/utils/lod.ts` — resolution selection (`calculateRequiredResolution`);
* `src/hooks/useViewURL.ts` — UUID canonicalization (`formatUUID`);
* `src/components/PanoramaViewer.tsx` — the progressive panorama
  controller (`loadPanorama` main body and its background-upgrade
  callback).

Network fetches are modelled by an explicit oracle `fetch : String → Option Img`
(`none` = the request fails), making the event-loop interleaving
explicit where the claims need it: the controller's upgrade callback is a
pure function of the ref values it observes at each of its two staleness
checks.
-/

namespace Panorama

/-- The type `TextureResolution` from `src/utils/textureLoader.ts`:
the union type `'512' | '1k' | '2k'`. -/
inductive TextureResolution : Type
  | r512
  | r1k
  | r2k
  deriving DecidableEq, Repr

/-- The external string form of a tier, as it appears in tile URLs
(`'512' | '1k' | '2k'` are string literals in the source). -/
def resolutionString : TextureResolution → String
  | .r512 => "512"
  | .r1k => "1k"
  | .r2k => "2k"

/-- The function `getTilesPerSide` from `src/utils/textureLoader.ts`:
512 → 1×1 grid, 1k → 2×2 grid, 2k → 4×4 grid. -/
def getTilesPerSide : TextureResolution → Nat
  | .r512 => 1
  | .r1k => 2
  | .r2k => 4

/-- Rank of a tier in the ordered set {low < medium < high}; used to state
monotonicity of tier selection. -/
def resolutionRank : TextureResolution → Nat
  | .r512 => 0
  | .r1k => 1
  | .r2k => 2

/-- The identifier sanitization `sweepUuid.replace` with the global hyphen
regex and the empty replacement — strip all separator characters (hyphens)
from an identifier. -/
def sanitizeUuid (s : String) : String :=
  String.mk (s.data.filter (fun c => c ≠ '-'))

/-- The function `formatUUID` from `src/hooks/useViewURL.ts`: strip hyphens, and when the
result has exactly 32 characters re-insert hyphens at offsets 8, 12, 16, 20
(pattern 8-4-4-4-12); otherwise return the input unchanged. -/
def formatUUID (uuid : String) : String :=
  let clean := sanitizeUuid uuid
  if clean.length ≠ 32 then uuid
  else
    String.mk
      (clean.data.take 8 ++ ['-'] ++ ((clean.data.drop 8).take 4) ++ ['-'] ++
        ((clean.data.drop 12).take 4) ++ ['-'] ++ ((clean.data.drop 16).take 4) ++ ['-'] ++
        ((clean.data.drop 20).take 12))

/-- The tile URL template from `src/utils/textureLoader.ts`
(`getTilePaths` and the identical inline loop of `loadCubemapTextures`):
`{basePath}/panoramas/{sanitizedUuid}/{resolution}_face{face}_{row}_{col}.jpg`. -/
def tileUrl (basePath sanitizedUuid : String) (resolution : TextureResolution)
    (face row col : Nat) : String :=
  basePath ++ "/panoramas/" ++ sanitizedUuid ++ "/" ++ resolutionString resolution ++
    "_face" ++ toString face ++ "_" ++ (toString row ++ "_" ++ toString col ++ ".jpg")

/-- The function `getTilePaths` from `src/utils/textureLoader.ts`: sanitize the
identifier, then push one URL per (row, col) with `row` the outer loop and
`col` the inner loop, both running over `0 .. tilesPerSide - 1`. -/
def getTilePaths (sweepUuid : String) (resolution : TextureResolution) (face : Nat)
    (basePath : String) : List String :=
  let tilesPerSide := getTilesPerSide resolution
  let sanitizedUuid := sanitizeUuid sweepUuid
  (List.range tilesPerSide).flatMap (fun row =>
    (List.range tilesPerSide).map (fun col =>
      tileUrl basePath sanitizedUuid resolution face row col))

/-- The default `basePath`: Vite's `BASE_URL` (configured as
`/8800-blue-lick/` in the Vite config) plus `assets/BGMifUnvLxQ`. -/
def defaultBasePath : String := "/8800-blue-lick/assets/BGMifUnvLxQ"

/-- The pixel content of a face texture produced by `loadTiledTexture`:
either a directly loaded single image (the `tilesPerSide === 1` fast path)
or a canvas of side `512 * tilesPerSide` holding the ordered log of
`drawImage` calls, each drawing one 512×512 tile at cell
(x / 512, y / 512) = (draw.1, draw.2.1). Images are abstracted by the
type `Img`; later draws overwrite earlier ones at the same cell. -/
inductive TexContent (Img : Type) : Type
  | single (img : Img)
  | canvas (tilesPerSide : Nat) (draws : List (Nat × Nat × Img))
  deriving DecidableEq, Repr

/-- A texture as returned by the loader: its pixel content plus the
attributes the source sets on it (`colorSpace = SRGBColorSpace`, and the
horizontal mirror `repeat.set(-1, 1)` applied by `loadCubemapTextures`). -/
structure LoadedTexture (Img : Type) : Type where
  content : TexContent Img
  srgb : Bool
  flippedH : Bool
  deriving DecidableEq, Repr

/-- Read one 512×512-aligned cell of a canvas draw log: the last draw that
targeted cell (x, y), if any; `none` is the canvas's default blank state. -/
def cellAt {Img : Type} (draws : List (Nat × Nat × Img)) (x y : Nat) : Option Img :=
  ((draws.filter (fun e => e.1 == x && e.2.1 == y)).getLast?).map (fun e => e.2.2)

/-- The function `loadTiledTexture` from `src/utils/textureLoader.ts`, over a fetch
oracle `fetch : String → Option Img` (`none` = that tile request fails).

* `tilesPerSide == 1`: load `tileUrls[0]` directly; a failed load rejects
  the whole promise (`loader.loadAsync` rejects).
* otherwise: fetch every tile concurrently; each tile settles as
  `{img, row, col, success}` with `row = ⌊tileUrls.indexOf(url) / tilesPerSide⌋`
  and `col = tileUrls.indexOf(url) % tilesPerSide` (the source recovers the
  indices with `indexOf` inside the per-url callback); after all settle,
  draw each successful tile at `x = row * 512`, `y = col * 512` (the
  intentional transpose), iterating the settled results in input order.
  Per-tile failures never reject: the promise always fulfils with the
  composed canvas texture.

`Promise.all` is deterministic fan-in: the settled-results array is in
input order whatever the completion order, so the draw log — and hence the
final raster — does not depend on completion order; the embedding is
accordingly a pure function of `fetch`. -/
def loadTiledTexture {Img : Type} (fetch : String → Option Img) (tileUrls : List String)
    (tilesPerSide : Nat) : Option (LoadedTexture Img) :=
  if tilesPerSide == 1 then
    match tileUrls.head? with
    | none => none
    | some url => (fetch url).map (fun img => ⟨.single img, true, false⟩)
  else
    let loadResults := tileUrls.map (fun url =>
      (fetch url, tileUrls.indexOf url / tilesPerSide, tileUrls.indexOf url % tilesPerSide))
    let draws := loadResults.foldl (fun cv r =>
      match r.1 with
      | some img => cv ++ [(r.2.1, r.2.2, img)]
      | none => cv) []
    some ⟨.canvas tilesPerSide draws, true, false⟩

/-- The fixed source-face iteration order of `loadCubemapTextures`:
Matterport faces [4, 2, 0, 5, 1, 3], producing the destination order
[right, left, top, bottom, front, back] expected by the cube geometry. -/
def matterportFaceOrder : List Nat := [4, 2, 0, 5, 1, 3]

/-- The inside-of-cube correction `loadCubemapTextures` applies to every
face texture: `texture.center.set(0.5, 0.5); texture.repeat.set(-1, 1)`,
a horizontal mirror. -/
def flipHorizontal {Img : Type} (t : LoadedTexture Img) : LoadedTexture Img :=
  { t with flippedH := true }

/-- The join-all primitive (`Promise.all`): waits on every settled result
in input order; succeeds with the results in input order iff every element
succeeded, and rejects if any element rejected. -/
def joinAll {α : Type} : List (Option α) → Option (List α)
  | [] => some []
  | none :: _ => none
  | some a :: rest =>
    match joinAll rest with
    | some as => some (a :: as)
    | none => none

/-- The function `loadCubemapTextures` from `src/utils/textureLoader.ts`: sanitize the
identifier, then for each source face in `matterportFaceOrder` build the
tile URL list with the same nested row/col loop as `getTilePaths`, compose
the face via `loadTiledTexture`, and mirror it horizontally. The faces are
fetched concurrently and joined with `Promise.all` (`joinAll`), which
preserves input ordering and rejects the whole load if any face load
rejects. -/
def loadCubemapTextures {Img : Type} (fetch : String → Option Img) (sweepUuid : String)
    (resolution : TextureResolution) (basePath : String) :
    Option (List (LoadedTexture Img)) :=
  let sanitizedUuid := sanitizeUuid sweepUuid
  let tilesPerSide := getTilesPerSide resolution
  joinAll (matterportFaceOrder.map (fun face =>
    let tileUrls := (List.range tilesPerSide).flatMap (fun row =>
      (List.range tilesPerSide).map (fun col =>
        tileUrl basePath sanitizedUuid resolution face row col))
    (loadTiledTexture fetch tileUrls tilesPerSide).map flipHorizontal))

/-- The screen-footprint computation of `calculateRequiredResolution` in
`src/utils/lod.ts`, with the viewport dimensions (`window.innerWidth`,
`window.innerHeight`) passed explicitly: distance to a face is
`cubeSize / 2`; visible height at that distance is
`2 * faceDistance * tan(fovRadians / 2)` with `fovRadians = fov * π / 180`;
visible width scales by the aspect ratio; each face ratio
(`cubeSize / visibleExtent`) is projected to pixels by the matching
viewport dimension; the result is the larger of the two projections. -/
noncomputable def maxFacePixels (fov screenWidth screenHeight cubeSize : ℝ) : ℝ :=
  let faceDistance := cubeSize / 2
  let fovRadians := fov * (Real.pi / 180)
  let visibleHeight := 2 * faceDistance * Real.tan (fovRadians / 2)
  let aspect := screenWidth / screenHeight
  let visibleWidth := visibleHeight * aspect
  let faceWidthRatio := cubeSize / visibleWidth
  let faceHeightRatio := cubeSize / visibleHeight
  max (faceWidthRatio * screenWidth) (faceHeightRatio * screenHeight)

/-- The final threshold chain of `calculateRequiredResolution`:
strictly below 600 screen pixels → 512, strictly below 1200 → 1k,
otherwise → 2k. -/
noncomputable def selectTierFromPixels (maxPixels : ℝ) : TextureResolution :=
  if maxPixels < 600 then .r512
  else if maxPixels < 1200 then .r1k
  else .r2k

/-- The function `calculateRequiredResolution` from `src/utils/lod.ts`: the threshold
chain applied to the screen-footprint measure. -/
noncomputable def calculateRequiredResolution (fov screenWidth screenHeight cubeSize : ℝ) :
    TextureResolution :=
  selectTierFromPixels (maxFacePixels fov screenWidth screenHeight cubeSize)

/-- A `THREE.MeshBasicMaterial({ map: texture, side: THREE.BackSide })` as
built by `PanoramaViewer.tsx`; `backSide` records the constant
`side: THREE.BackSide`. -/
structure MeshBasicMaterial (Img : Type) : Type where
  map : LoadedTexture Img
  backSide : Bool
  deriving DecidableEq, Repr

/-- The panorama mesh owned by the controller: a `THREE.Mesh` of a
`BoxGeometry(s, s, s)` (`geometrySize` records `s`, 50 in the source) and
one material per face. -/
structure PanoMesh (Img : Type) : Type where
  geometrySize : Nat
  materials : List (MeshBasicMaterial Img)
  deriving DecidableEq, Repr

/-- One observable side effect of the controller (`PanoramaViewer.tsx`),
in program order: scene mutations, disposals, network loads, timer
scheduling, material assignment, and the four `console` messages. -/
inductive ControllerAction (Img : Type) : Type
  | sceneRemove (m : PanoMesh Img)
  | disposeGeometry
  | disposeTexture (t : LoadedTexture Img)
  | disposeMaterial (m : MeshBasicMaterial Img)
  | fetchCubemap (sweepUuid : String) (resolution : TextureResolution)
  | sceneAdd (m : PanoMesh Img)
  | scheduleUpgrade (sweepUuid : String) (resolution : TextureResolution)
  | setMaterials (ms : List (MeshBasicMaterial Img))
  | logPreviewError
  | logUpgradeCancelledPre
  | logUpgradeCancelledPost
  | logUpgradeError
  deriving DecidableEq, Repr

/-- Holds on the actions that mutate the displayed mesh or the scene. -/
def ControllerAction.mutatesScene {Img : Type} : ControllerAction Img → Bool
  | .sceneRemove _ => true
  | .sceneAdd _ => true
  | .setMaterials _ => true
  | _ => false

/-- Holds on the actions that release a GPU resource. -/
def ControllerAction.isDispose {Img : Type} : ControllerAction Img → Bool
  | .disposeGeometry => true
  | .disposeTexture _ => true
  | .disposeMaterial _ => true
  | _ => false

/-- Holds exactly on `disposeTexture`. -/
def ControllerAction.isDisposeTexture {Img : Type} : ControllerAction Img → Bool
  | .disposeTexture _ => true
  | _ => false

/-- Holds exactly on `setMaterials`. -/
def ControllerAction.isSetMaterials {Img : Type} : ControllerAction Img → Bool
  | .setMaterials _ => true
  | _ => false

/-- Holds exactly on `fetchCubemap`. -/
def ControllerAction.isFetch {Img : Type} : ControllerAction Img → Bool
  | .fetchCubemap _ _ => true
  | _ => false

/-- The mesh-teardown sequence of `PanoramaViewer.tsx` (used both at the
top of `loadPanorama` and in the effect cleanup): `scene.remove(mesh)`,
`geometry.dispose()`, then for each material `mat.map.dispose()` and
`mat.dispose()`. -/
def disposeMeshActions {Img : Type} (m : PanoMesh Img) : List (ControllerAction Img) :=
  [.sceneRemove m, .disposeGeometry] ++
    m.materials.flatMap (fun mat => [.disposeTexture mat.map, .disposeMaterial mat])

/-- Result of one run of the `loadPanorama` main body: its action trace,
the final `meshRef.current`, the final scene contents, and whether a
background-upgrade timer was scheduled. -/
structure MainResult (Img : Type) : Type where
  trace : List (ControllerAction Img)
  meshRef : Option (PanoMesh Img)
  scene : List (PanoMesh Img)
  upgradeScheduled : Bool
  deriving Repr

/-- The main body of `loadPanorama` in `PanoramaViewer.tsx`, from entry to
its first suspension-free completion (the scheduled upgrade callback is
modelled separately by `upgradeBody`):

1. if `meshRef.current` is set, remove it from the scene and dispose its
   geometry, each material's texture and each material;
2. `await loadCubemapTextures(sweepUuid, '512')` — the preview fetch is
   always tier 512 whatever `targetResolution`;
3. on failure: `console.error('Failed to load panorama:', ...)`; nothing
   else happens (`meshRef` still holds the removed mesh, no retry);
4. on success: build one `MeshBasicMaterial` per texture, build the
   `BoxGeometry(50, 50, 50)` mesh, store it in `meshRef`, `scene.add` it,
   and iff `targetResolution !== '512'` schedule the background upgrade. -/
def loadPanoramaMain {Img : Type} [DecidableEq Img] (fetch : String → Option Img)
    (sweepUuid : String) (targetResolution : TextureResolution)
    (meshRef0 : Option (PanoMesh Img)) (scene0 : List (PanoMesh Img)) : MainResult Img :=
  let removeTrace := match meshRef0 with
    | some m => disposeMeshActions m
    | none => []
  let scene1 := match meshRef0 with
    | some m => scene0.erase m
    | none => scene0
  match loadCubemapTextures fetch sweepUuid .r512 defaultBasePath with
  | none =>
      ⟨removeTrace ++ [.fetchCubemap sweepUuid .r512, .logPreviewError],
        meshRef0, scene1, false⟩
  | some textures =>
      let materials := textures.map (fun t => (⟨t, true⟩ : MeshBasicMaterial Img))
      let mesh : PanoMesh Img := ⟨50, materials⟩
      ⟨removeTrace ++ [.fetchCubemap sweepUuid .r512, .sceneAdd mesh] ++
          (if targetResolution ≠ .r512 then [.scheduleUpgrade sweepUuid targetResolution] else []),
        some mesh, scene1 ++ [mesh], targetResolution ≠ .r512⟩

/-- What the upgrade callback observes at each of its suspension points.
`check1…` are the values of `currentSweepRef` / `currentResolutionRef`
when the 100 ms timer fires; `fetchResult` is the settled result of the
awaited `loadCubemapTextures(sweepUuid, targetResolution)` (`none` = the
promise rejected, e.g. a thrown 2D-context failure during face
composition); `check2…` are the ref values after that fetch settles (a
newer request may have overwritten them meanwhile); `meshAtApply` is
`meshRef.current` at the apply step. -/
structure UpgradeEnv (Img : Type) : Type where
  check1Sweep : Option String
  check1Res : Option TextureResolution
  fetchResult : Option (List (LoadedTexture Img))
  check2Sweep : Option String
  check2Res : Option TextureResolution
  meshAtApply : Option (PanoMesh Img)
  deriving Repr

/-- The background-upgrade callback of `loadPanorama`
(the `setTimeout(async () => { … }, 100)` body), as a pure function of the
values observed at each of its suspension points (`env`):

1. staleness check 1: if `currentSweepRef.current !== sweepUuid ||
   currentResolutionRef.current !== targetResolution`, log and return —
   nothing is fetched or touched;
2. `await loadCubemapTextures(sweepUuid, targetResolution)` — settled
   value `env.fetchResult`; a rejection lands in the catch:
   `console.error(…)`, nothing else — the displayed mesh is untouched and
   there is no retry;
3. staleness check 2 (same comparison): if stale, log and return — note
   the source does **not** dispose the freshly loaded textures here, it
   simply drops them;
4. build the new materials from the new textures; then, if
   `meshRef.current` is set, dispose each old material's texture and the
   old material, and only after that assign
   `meshRef.current.material = newMaterials`. Geometry is untouched.

Returns the action trace and the resulting `meshRef.current`. -/
def upgradeBody {Img : Type} [DecidableEq Img] (sweepUuid : String)
    (targetResolution : TextureResolution) (env : UpgradeEnv Img) :
    List (ControllerAction Img) × Option (PanoMesh Img) :=
  if env.check1Sweep ≠ some sweepUuid ∨ env.check1Res ≠ some targetResolution then
    ([.logUpgradeCancelledPre], env.meshAtApply)
  else
    match env.fetchResult with
    | none => ([.fetchCubemap sweepUuid targetResolution, .logUpgradeError], env.meshAtApply)
    | some highResTextures =>
        if env.check2Sweep ≠ some sweepUuid ∨ env.check2Res ≠ some targetResolution then
          ([.fetchCubemap sweepUuid targetResolution, .logUpgradeCancelledPost],
            env.meshAtApply)
        else
          let newMaterials := highResTextures.map
            (fun t => (⟨t, true⟩ : MeshBasicMaterial Img))
          match env.meshAtApply with
          | none => ([.fetchCubemap sweepUuid targetResolution], none)
          | some mesh =>
              ([.fetchCubemap sweepUuid targetResolution] ++
                  mesh.materials.flatMap
                    (fun mat => [.disposeTexture mat.map, .disposeMaterial mat]) ++
                  [.setMaterials newMaterials],
                some { mesh with materials := newMaterials })

/-! ## Claim C4 — tier selection -/

/-- The threshold chain: characterization of each tier by strict
thresholds on the pixel measure. -/
lemma selectTierFromPixels_eq_iff (m : ℝ) :
    (selectTierFromPixels m = .r512 ↔ m < 600) ∧
    (selectTierFromPixels m = .r1k ↔ 600 ≤ m ∧ m < 1200) ∧
    (selectTierFromPixels m = .r2k ↔ 1200 ≤ m) := by
  unfold selectTierFromPixels
  split_ifs with h1 h2
  · exact ⟨⟨fun _ => h1, fun _ => rfl⟩,
      ⟨fun hc => (nomatch hc), fun hc => absurd h1 (not_lt.mpr hc.1)⟩,
      ⟨fun hc => (nomatch hc), fun hc => absurd h1 (not_lt.mpr (by linarith))⟩⟩
  · exact ⟨⟨fun hc => (nomatch hc), fun hc => absurd hc h1⟩,
      ⟨fun _ => ⟨not_lt.mp h1, h2⟩, fun _ => rfl⟩,
      ⟨fun hc => (nomatch hc), fun hc => absurd h2 (not_lt.mpr hc)⟩⟩
  · exact ⟨⟨fun hc => (nomatch hc), fun hc => absurd hc h1⟩,
      ⟨fun hc => (nomatch hc), fun hc => absurd hc.2 h2⟩,
      ⟨fun _ => not_lt.mp h2, fun _ => rfl⟩⟩

/-- C4: for every FOV in (0°, 180°) and positive viewport dimensions,
`calculateRequiredResolution` returns exactly one of the three tiers,
chosen from the maximum of the two projected face pixel measures by strict
thresholds — 512 iff the measure is strictly below 600, 1k iff it is at
least 600 and strictly below 1200, 2k otherwise; the chosen tier is
monotone non-decreasing in the measure, and at exactly 600 and exactly
1200 the higher tier is selected. -/
theorem calculateRequiredResolution_spec :
    (∀ fov screenWidth screenHeight cubeSize : ℝ,
      0 < fov → fov < 180 → 0 < screenWidth → 0 < screenHeight →
      (calculateRequiredResolution fov screenWidth screenHeight cubeSize = .r512 ↔
        maxFacePixels fov screenWidth screenHeight cubeSize < 600) ∧
      (calculateRequiredResolution fov screenWidth screenHeight cubeSize = .r1k ↔
        600 ≤ maxFacePixels fov screenWidth screenHeight cubeSize ∧
          maxFacePixels fov screenWidth screenHeight cubeSize < 1200) ∧
      (calculateRequiredResolution fov screenWidth screenHeight cubeSize = .r2k ↔
        1200 ≤ maxFacePixels fov screenWidth screenHeight cubeSize)) ∧
    (∀ x y : ℝ, x ≤ y →
      resolutionRank (selectTierFromPixels x) ≤ resolutionRank (selectTierFromPixels y)) ∧
    selectTierFromPixels 600 = .r1k ∧ selectTierFromPixels 1200 = .r2k := by
  refine ⟨?_, ?_, ?_, ?_⟩
  · intro fov screenWidth screenHeight cubeSize _ _ _ _
    exact selectTierFromPixels_eq_iff (maxFacePixels fov screenWidth screenHeight cubeSize)
  · intro x y hxy
    unfold selectTierFromPixels
    split_ifs <;> simp [resolutionRank] <;> linarith
  · unfold selectTierFromPixels
    norm_num
  · unfold selectTierFromPixels
    norm_num

/-- Witness for C4 at FOV 90°, viewport 800×600, cube size 10: the
measure evaluates to exactly 600 (tan(π/4) = 1 makes both projections
600), so the boundary goes to the 1k tier. -/
theorem calculateRequiredResolution_spec_witness :
    maxFacePixels 90 800 600 10 = 600 ∧
    calculateRequiredResolution 90 800 600 10 = .r1k := by
  have hm : maxFacePixels 90 800 600 10 = 600 := by
    simp only [maxFacePixels]
    rw [show (90 : ℝ) * (Real.pi / 180) / 2 = Real.pi / 4 by ring, Real.tan_pi_div_four]
    norm_num
  refine ⟨hm, ?_⟩
  have h := (calculateRequiredResolution_spec.1 90 800 600 10
    (by norm_num) (by norm_num) (by norm_num) (by norm_num)).2.1
  rw [h, hm]
  norm_num

/-! ## List and string helpers -/

/-- Left-cancellation for string concatenation. -/
lemma string_append_left_cancel {a b c : String} (h : a ++ b = a ++ c) : b = c := by
  have hd := congrArg String.data h
  simp only [String.data_append] at hd
  exact String.ext (List.append_cancel_left hd)

/-- The row/col suffix of a tile URL determines (row, col) for all grid
coordinates below the maximal grid dimension 4. -/
lemma tileSuffix_inj : ∀ r1 ∈ List.range 4, ∀ c1 ∈ List.range 4,
    ∀ r2 ∈ List.range 4, ∀ c2 ∈ List.range 4,
    toString r1 ++ "_" ++ toString c1 ++ ".jpg" =
      toString r2 ++ "_" ++ toString c2 ++ ".jpg" → r1 = r2 ∧ c1 = c2 := by decide

/-- Within one (identifier, tier, face) family, a tile URL determines its
(row, col). -/
lemma tileUrl_inj {basePath sid : String} {res : TextureResolution} {face : Nat}
    {r1 c1 r2 c2 : Nat} (hr1 : r1 < 4) (hc1 : c1 < 4) (hr2 : r2 < 4) (hc2 : c2 < 4)
    (h : tileUrl basePath sid res face r1 c1 = tileUrl basePath sid res face r2 c2) :
    r1 = r2 ∧ c1 = c2 := by
  unfold tileUrl at h
  exact tileSuffix_inj r1 (List.mem_range.mpr hr1) c1 (List.mem_range.mpr hc1)
    r2 (List.mem_range.mpr hr2) c2 (List.mem_range.mpr hc2)
    (string_append_left_cancel h)

/-- Length of a flat map whose pieces all have length `d`. -/
lemma length_flatMap_const {α β : Type} (f : α → List β) (d : Nat) (l : List α)
    (h : ∀ a ∈ l, (f a).length = d) : (l.flatMap f).length = l.length * d := by
  induction l with
  | nil => simp
  | cons a t ih =>
    have ha := h a (by simp)
    have ht := ih (fun x hx => h x (by simp [hx]))
    simp only [List.flatMap_cons, List.length_append, List.length_cons, ha, ht]
    ring

/-- Row-major indexing into a flat map whose pieces all have length `d`. -/
lemma getElem?_flatMap_const {α β : Type} (f : α → List β) (d : Nat) (l : List α)
    (h : ∀ a ∈ l, (f a).length = d) (i j : Nat) (hj : j < d) (hi : i < l.length) :
    (l.flatMap f)[i * d + j]? = (f l[i])[j]? := by
  induction l generalizing i with
  | nil => simp at hi
  | cons a t ih =>
    rw [List.flatMap_cons]
    cases i with
    | zero =>
      have ha : (f a).length = d := h a (by simp)
      simp only [Nat.zero_mul, Nat.zero_add, List.getElem_cons_zero]
      rw [List.getElem?_append, if_pos (by omega)]
    | succ i' =>
      have ha : (f a).length = d := h a (by simp)
      have hidx : (i' + 1) * d + j = (f a).length + (i' * d + j) := by rw [ha]; ring
      rw [hidx, List.getElem?_append,
        if_neg (Nat.not_lt.mpr (Nat.le_add_right _ _)), Nat.add_sub_cancel_left]
      have hi' : i' < t.length := by simpa [Nat.succ_lt_succ_iff] using hi
      have := ih (fun x hx => h x (by simp [hx])) i' hi'
      simpa using this

/-- The function `getTilePaths` always produces `tilesPerSide²` paths. -/
lemma getTilePaths_length (sweepUuid : String) (res : TextureResolution) (face : Nat)
    (basePath : String) :
    (getTilePaths sweepUuid res face basePath).length =
      getTilesPerSide res * getTilesPerSide res := by
  unfold getTilePaths
  rw [length_flatMap_const _ (getTilesPerSide res) _ (fun a _ => by simp)]
  simp

/-- The path at row-major position `row * d + col` is the tile URL for
(row, col). -/
lemma getTilePaths_getElem? (sweepUuid : String) (res : TextureResolution) (face : Nat)
    (basePath : String) {row col : Nat} (hrow : row < getTilesPerSide res)
    (hcol : col < getTilesPerSide res) :
    (getTilePaths sweepUuid res face basePath)[row * getTilesPerSide res + col]? =
      some (tileUrl basePath (sanitizeUuid sweepUuid) res face row col) := by
  unfold getTilePaths
  rw [getElem?_flatMap_const _ (getTilesPerSide res) _ (fun a _ => by simp) _ _ hcol
    (by simpa using hrow)]
  simp [List.getElem_range, List.getElem?_map, List.getElem?_range, hcol]

/-- Every grid dimension is positive and at most 4. -/
lemma getTilesPerSide_bounds (res : TextureResolution) :
    0 < getTilesPerSide res ∧ getTilesPerSide res ≤ 4 := by
  cases res <;> simp [getTilesPerSide]

/-- The per-face tile URL list never repeats a URL. -/
lemma getTilePaths_nodup (sweepUuid : String) (res : TextureResolution) (face : Nat)
    (basePath : String) : (getTilePaths sweepUuid res face basePath).Nodup := by
  have hdpos := (getTilesPerSide_bounds res).1
  have hd4 := (getTilesPerSide_bounds res).2
  have hlen := getTilePaths_length sweepUuid res face basePath
  rw [List.nodup_iff_injective_get]
  intro k1 k2 hk
  set d := getTilesPerSide res with hd
  have hsplit : ∀ k : Fin (getTilePaths sweepUuid res face basePath).length,
      (getTilePaths sweepUuid res face basePath).get k =
        tileUrl basePath (sanitizeUuid sweepUuid) res face ((k : Nat) / d) ((k : Nat) % d) := by
    intro k
    have hkd : (k : Nat) < d * d := by rw [← hlen]; exact k.isLt
    have hdiv : (k : Nat) / d < d := (Nat.div_lt_iff_lt_mul hdpos).mpr hkd
    have hmod : (k : Nat) % d < d := Nat.mod_lt _ hdpos
    have hidx : (k : Nat) / d * d + (k : Nat) % d = (k : Nat) := by
      rw [Nat.mul_comm]; exact Nat.div_add_mod _ _
    have h := getTilePaths_getElem? sweepUuid res face basePath hdiv hmod
    rw [hidx, List.getElem?_eq_getElem k.isLt] at h
    simpa [List.get_eq_getElem] using h
  rw [hsplit k1, hsplit k2] at hk
  obtain ⟨hdiv, hmod⟩ := tileUrl_inj
    (lt_of_lt_of_le ((Nat.div_lt_iff_lt_mul hdpos).mpr (by rw [← hlen]; exact k1.isLt)) hd4)
    (lt_of_lt_of_le (Nat.mod_lt _ hdpos) hd4)
    (lt_of_lt_of_le ((Nat.div_lt_iff_lt_mul hdpos).mpr (by rw [← hlen]; exact k2.isLt)) hd4)
    (lt_of_lt_of_le (Nat.mod_lt _ hdpos) hd4) hk
  have : (k1 : Nat) = (k2 : Nat) := by
    have h1 := Nat.div_add_mod (k1 : Nat) d
    have h2 := Nat.div_add_mod (k2 : Nat) d
    rw [hdiv, hmod] at h1
    exact h1.symm.trans h2
  exact Fin.ext this

/-- The method `indexOf` recovers the generation index of every tile URL. -/
lemma getTilePaths_indexOf (sweepUuid : String) (res : TextureResolution) (face : Nat)
    (basePath : String) {i : Nat} {url : String}
    (h : (getTilePaths sweepUuid res face basePath)[i]? = some url) :
    (getTilePaths sweepUuid res face basePath).indexOf url = i := by
  have hlt : i < (getTilePaths sweepUuid res face basePath).length :=
    List.getElem?_eq_some.mp h |>.1
  have hurl : (getTilePaths sweepUuid res face basePath)[i] = url := by
    have := List.getElem?_eq_getElem hlt
    rw [h] at this
    exact (Option.some.injEq _ _).mp this.symm
  rw [← hurl]
  exact List.indexOf_getElem (getTilePaths_nodup sweepUuid res face basePath) i hlt

/-! ## Claim C7 — tile path resolution -/

/-- C7: for every identifier, tier and face index, `getTilePaths` returns
exactly `gridDim²` paths — 1 for tier 512, 4 for 1k, 16 for 2k — ordered
row-major (row outer, column inner), each path matching the template
`{basePath}/panoramas/{sanitizedIdentifier}/{tier}_face{faceIndex}_{row}_{col}.jpg`
with the sanitized identifier having all separators removed and row/col
zero-based. -/
theorem getTilePaths_spec (sweepUuid : String) (resolution : TextureResolution)
    (face : Nat) (basePath : String) :
    (getTilePaths sweepUuid .r512 face basePath).length = 1 ∧
    (getTilePaths sweepUuid .r1k face basePath).length = 4 ∧
    (getTilePaths sweepUuid .r2k face basePath).length = 16 ∧
    (∀ row col : Nat, row < getTilesPerSide resolution → col < getTilesPerSide resolution →
      (getTilePaths sweepUuid resolution face basePath)[row * getTilesPerSide resolution + col]? =
        some (basePath ++ "/panoramas/" ++ sanitizeUuid sweepUuid ++ "/" ++
          resolutionString resolution ++ "_face" ++ toString face ++ "_" ++
          (toString row ++ "_" ++ toString col ++ ".jpg"))) := by
  refine ⟨?_, ?_, ?_, ?_⟩
  · rw [getTilePaths_length]; rfl
  · rw [getTilePaths_length]; rfl
  · rw [getTilePaths_length]; rfl
  · intro row col hrow hcol
    exact getTilePaths_getElem? sweepUuid resolution face basePath hrow hcol

/-- Witness for C7: the medium tier for a hyphenated identifier, face 2,
row 1, col 0 — evaluated concretely. -/
theorem getTilePaths_spec_witness :
    (1 < getTilesPerSide .r1k ∧ 0 < getTilesPerSide .r1k) ∧
    (getTilePaths "ab-c" .r1k 2 "B")[1 * getTilesPerSide .r1k + 0]? =
      some ("B" ++ "/panoramas/" ++ sanitizeUuid "ab-c" ++ "/" ++
        resolutionString .r1k ++ "_face" ++ toString 2 ++ "_" ++
        (toString 1 ++ "_" ++ toString 0 ++ ".jpg")) :=
  ⟨by decide, (getTilePaths_spec "ab-c" .r1k 2 "B").2.2.2 1 0 (by decide) (by decide)⟩

/-! ## Claim C10 — tile URL distinctness -/

/-- C10: for every identifier, tier and face, the generated tile URL list
is pairwise distinct, and consequently `indexOf` recovers each URL's
row-major generation index — the invariant that makes the compositor's
`indexOf`-based (row, col) recovery agree with generation order. -/
theorem getTilePaths_distinct_indexOf (sweepUuid : String) (res : TextureResolution)
    (face : Nat) (basePath : String) :
    (getTilePaths sweepUuid res face basePath).Nodup ∧
    ∀ i url, (getTilePaths sweepUuid res face basePath)[i]? = some url →
      (getTilePaths sweepUuid res face basePath).indexOf url = i :=
  ⟨getTilePaths_nodup sweepUuid res face basePath,
    fun _ _ h => getTilePaths_indexOf sweepUuid res face basePath h⟩

/-- Witness for C10: in the 2×2 medium grid the URL generated at row-major
index 2 (row 1, col 0) is recovered at index 2 by `indexOf`. -/
theorem getTilePaths_distinct_indexOf_witness :
    (getTilePaths "ab" .r1k 0 "B").indexOf "B/panoramas/ab/1k_face0_1_0.jpg" = 2 :=
  (getTilePaths_distinct_indexOf "ab" .r1k 0 "B").2 2
    "B/panoramas/ab/1k_face0_1_0.jpg" (by decide)

/-! ## Claim C8 — identifier sanitization round-trip -/

/-- Stripping separators is idempotent. -/
lemma sanitizeUuid_idem (s : String) : sanitizeUuid (sanitizeUuid s) = sanitizeUuid s := by
  unfold sanitizeUuid
  congr 1
  rw [List.filter_filter]
  simp

/-- Reassembling the 8/4/4/4/12 slices of a 32-element list gives the list
back. -/
lemma take_chain_32 (l : List Char) (hl : l.length = 32) :
    l.take 8 ++ ((l.drop 8).take 4 ++ ((l.drop 12).take 4 ++
      ((l.drop 16).take 4 ++ (l.drop 20).take 12))) = l := by
  have h20 : (l.drop 20).take 12 = l.drop 20 :=
    List.take_of_length_le (by simp [hl])
  have e16 : (l.drop 16).take 4 ++ l.drop 20 = l.drop 16 := by
    have h := List.take_append_drop 4 (l.drop 16)
    rwa [show (l.drop 16).drop 4 = l.drop 20 by simp [List.drop_drop]] at h
  have e12 : (l.drop 12).take 4 ++ l.drop 16 = l.drop 12 := by
    have h := List.take_append_drop 4 (l.drop 12)
    rwa [show (l.drop 12).drop 4 = l.drop 16 by simp [List.drop_drop]] at h
  have e8 : (l.drop 8).take 4 ++ l.drop 12 = l.drop 8 := by
    have h := List.take_append_drop 4 (l.drop 8)
    rwa [show (l.drop 8).drop 4 = l.drop 12 by simp [List.drop_drop]] at h
  rw [h20, e16, e12, e8, List.take_append_drop]

/-- C8: identifier sanitization and canonicalization round-trip — for every
identifier, `getTilePaths` produces identical path lists for the identifier
with or without separators; and canonicalizing a 32-character separator-free
identifier with `formatUUID` (separators inserted at offsets 8, 12, 16, 20)
and stripping the separators again yields the original identifier. -/
theorem identifier_roundtrip_spec :
    (∀ (sweepUuid : String) (res : TextureResolution) (face : Nat) (basePath : String),
      getTilePaths sweepUuid res face basePath =
        getTilePaths (sanitizeUuid sweepUuid) res face basePath) ∧
    (∀ uuid : String, uuid.length = 32 → (∀ c ∈ uuid.data, c ≠ '-') →
      sanitizeUuid (formatUUID uuid) = uuid) := by
  constructor
  · intro sweepUuid res face basePath
    unfold getTilePaths
    rw [sanitizeUuid_idem]
  · intro uuid hlen hclean
    have hsan : sanitizeUuid uuid = uuid := by
      unfold sanitizeUuid
      rw [List.filter_eq_self.mpr (fun c hc => by simpa using hclean c hc)]
    simp only [formatUUID, hsan]
    rw [if_neg (by simp [hlen])]
    unfold sanitizeUuid
    apply String.ext
    show (uuid.data.take 8 ++ ['-'] ++ (uuid.data.drop 8).take 4 ++ ['-'] ++
        (uuid.data.drop 12).take 4 ++ ['-'] ++ (uuid.data.drop 16).take 4 ++ ['-'] ++
        (uuid.data.drop 20).take 12).filter (fun c => c ≠ '-') = uuid.data
    have hf : ∀ (l : List Char), (∀ c ∈ l, c ≠ '-') →
        l.filter (fun c => decide (¬c = '-')) = l :=
      fun l h => List.filter_eq_self.mpr (fun c hc => by simpa using h c hc)
    simp only [List.filter_append]
    rw [hf _ (fun c hc => hclean c (List.take_subset _ _ hc)),
      hf _ (fun c hc => hclean c (List.drop_subset _ _ (List.take_subset _ _ hc))),
      hf _ (fun c hc => hclean c (List.drop_subset _ _ (List.take_subset _ _ hc))),
      hf _ (fun c hc => hclean c (List.drop_subset _ _ (List.take_subset _ _ hc))),
      hf _ (fun c hc => hclean c (List.drop_subset _ _ (List.take_subset _ _ hc)))]
    have hdash : (['-'] : List Char).filter (fun c => decide (¬c = '-')) = [] := by decide
    rw [hdash]
    simp only [List.append_nil, List.nil_append, List.append_assoc]
    exact take_chain_32 uuid.data hlen

/-- Witness for C8: the spec's end-to-end example identifier
`02a80ff31d6e4f7e8d9f250114b790ee` round-trips, and a hyphenated
identifier resolves to the same paths as its stripped form. -/
theorem identifier_roundtrip_spec_witness :
    sanitizeUuid (formatUUID "02a80ff31d6e4f7e8d9f250114b790ee") =
      "02a80ff31d6e4f7e8d9f250114b790ee" ∧
    getTilePaths "ab-c" .r1k 0 "B" = getTilePaths (sanitizeUuid "ab-c") .r1k 0 "B" :=
  ⟨identifier_roundtrip_spec.2 "02a80ff31d6e4f7e8d9f250114b790ee" (by decide) (by decide),
    identifier_roundtrip_spec.1 "ab-c" .r1k 0 "B"⟩

/-! ## Claim C5 — cubemap face ordering -/

/-- The join-all primitive preserves input ordering: when it succeeds, the
k-th result is the k-th input's settled value, whatever order the inputs
settled in. -/
lemma joinAll_spec {α : Type} : ∀ (l : List (Option α)) (ys : List α),
    joinAll l = some ys → ys.length = l.length ∧ ∀ k : Nat, ys[k]? = (l[k]?).bind id
  | [], ys, h => by
    simp only [joinAll, Option.some.injEq] at h
    subst h
    simp
  | o :: rest, ys, h => by
    cases o with
    | none => simp [joinAll] at h
    | some a =>
      cases hr : joinAll rest with
      | none => simp [joinAll, hr] at h
      | some as =>
        simp only [joinAll, hr, Option.some.injEq] at h
        obtain ⟨hlen, hk⟩ := joinAll_spec rest as hr
        subst h
        refine ⟨by simp [hlen], ?_⟩
        intro k
        cases k with
        | zero => simp
        | succ k' => simpa using hk k'

/-- C5: whenever `loadCubemapTextures` succeeds it returns exactly 6
textures in destination-face order, the texture at destination position k
being the one composed (and horizontally mirrored) from the tile paths of
source face `matterportFaceOrder[k]` with the fixed permutation
[4, 2, 0, 5, 1, 3]; the ordering is intrinsic to the order-preserving
join-all, not to face completion order (the embedding of `Promise.all` is
completion-order independent by construction). -/
theorem loadCubemapTextures_spec {Img : Type} (fetch : String → Option Img)
    (sweepUuid : String) (resolution : TextureResolution) (basePath : String)
    (ts : List (LoadedTexture Img))
    (h : loadCubemapTextures fetch sweepUuid resolution basePath = some ts) :
    ts.length = 6 ∧
    matterportFaceOrder = [4, 2, 0, 5, 1, 3] ∧
    ∀ (k face : Nat), matterportFaceOrder[k]? = some face →
      ts[k]? = (loadTiledTexture fetch
          (getTilePaths sweepUuid resolution face basePath)
          (getTilesPerSide resolution)).map flipHorizontal := by
  simp only [loadCubemapTextures] at h
  obtain ⟨hlen, hk⟩ := joinAll_spec _ ts h
  refine ⟨by simpa [matterportFaceOrder] using hlen, rfl, ?_⟩
  intro k face hface
  rw [hk k, List.getElem?_map, hface]
  rfl

/-- Witness for C5: an all-succeeding fetch at tier 512 produces the six
single-image textures, mirrored, in destination order. -/
theorem loadCubemapTextures_spec_witness :
    ([⟨.single 0, true, true⟩, ⟨.single 0, true, true⟩, ⟨.single 0, true, true⟩,
        ⟨.single 0, true, true⟩, ⟨.single 0, true, true⟩, ⟨.single 0, true, true⟩] :
      List (LoadedTexture Nat)).length = 6 ∧
    matterportFaceOrder = [4, 2, 0, 5, 1, 3] ∧
    ∀ (k face : Nat), matterportFaceOrder[k]? = some face →
      ([⟨.single 0, true, true⟩, ⟨.single 0, true, true⟩, ⟨.single 0, true, true⟩,
          ⟨.single 0, true, true⟩, ⟨.single 0, true, true⟩, ⟨.single 0, true, true⟩] :
        List (LoadedTexture Nat))[k]? =
        (loadTiledTexture (fun _ => some 0) (getTilePaths "A" .r512 face "B")
          (getTilesPerSide .r512)).map flipHorizontal :=
  loadCubemapTextures_spec (fun _ => some 0) "A" .r512 "B" _ (by decide)

/-! ## Claim C6 — tiled face composition with partial failures -/

/-- The draw loop (`loadResults.forEach` with `ctx.drawImage`) expressed as
a fold equals the filter-map of the successful results, in input order. -/
lemma foldl_draw_append {Img : Type} (results : List (Option Img × Nat × Nat)) :
    ∀ acc : List (Nat × Nat × Img),
      results.foldl (fun cv r =>
        match r.1 with
        | some img => cv ++ [(r.2.1, r.2.2, img)]
        | none => cv) acc =
      acc ++ results.filterMap (fun r => r.1.map (fun img => (r.2.1, r.2.2, img))) := by
  induction results with
  | nil => intro acc; simp
  | cons r rest ih =>
    intro acc
    obtain ⟨o, rc⟩ := r
    cases o with
    | none => simp [List.filterMap_cons, ih]
    | some img => simp [List.filterMap_cons, ih]

/-- For `tilesPerSide ≠ 1`, `loadTiledTexture` always fulfils, with the
draw log holding exactly the successful tiles, each at the transposed cell
recovered through `indexOf`. -/
lemma loadTiledTexture_canvas {Img : Type} (fetch : String → Option Img)
    (tileUrls : List String) (tilesPerSide : Nat) (hd : tilesPerSide ≠ 1) :
    loadTiledTexture fetch tileUrls tilesPerSide =
      some ⟨.canvas tilesPerSide
        (tileUrls.filterMap (fun url => (fetch url).map
          (fun img => (tileUrls.indexOf url / tilesPerSide,
            tileUrls.indexOf url % tilesPerSide, img)))), true, false⟩ := by
  simp only [loadTiledTexture]
  rw [if_neg (by simpa using hd)]
  rw [foldl_draw_append]
  rw [List.nil_append, List.filterMap_map]
  rfl

/-- Filtering the draw log for the cell of generation index `i` singles out
tile `i`'s draw (if it succeeded): distinct URLs make `indexOf` injective,
and (j / d, j mod d) determines j. Stated for a sublist `s` of the full URL
list `U` to enable induction. -/
lemma filterMap_filter_cell {Img : Type} (fetch : String → Option Img) (d : Nat)
    (U : List String) (hU : U.Nodup) (i : Nat) (hi : i < U.length) :
    ∀ s : List String, s.Nodup → (∀ u ∈ s, u ∈ U) →
      ((s.filterMap (fun url => (fetch url).map
          (fun img => (U.indexOf url / d, U.indexOf url % d, img)))).filter
        (fun e => e.1 == i / d && e.2.1 == i % d)) =
      (if U[i] ∈ s then
        (match fetch U[i] with
          | some img => [(i / d, i % d, img)]
          | none => [])
        else []) := by
  intro s
  induction s with
  | nil => simp
  | cons u t ih =>
    intro hnd hsub
    have hu : u ∈ U := hsub u (by simp)
    have iht := ih (List.Nodup.of_cons hnd) (fun x hx => hsub x (by simp [hx]))
    rw [List.filterMap_cons]
    by_cases he : u = U[i]
    · have hidx : U.indexOf u = i := by rw [he]; exact List.indexOf_getElem hU i hi
      have hnotmem : U[i] ∉ t := by
        rw [← he]
        exact (List.nodup_cons.mp hnd).1
      cases hf : fetch u with
      | none =>
        simp only [hf, Option.map_none']
        rw [iht, if_neg hnotmem, if_pos (by simp [← he])]
        rw [← he, hf]
      | some img =>
        simp only [hf, Option.map_some']
        rw [List.filter_cons, if_pos (by simp [hidx]), iht, if_neg hnotmem,
          if_pos (by simp [← he]), ← he, hf, hidx]
    · have hne : U.indexOf u ≠ i := by
        intro hcontra
        apply he
        have hget := List.getElem?_indexOf hu
        rw [hcontra, List.getElem?_eq_getElem hi] at hget
        exact ((Option.some.injEq _ _).mp hget).symm
      have hcell : ¬(U.indexOf u / d = i / d ∧ U.indexOf u % d = i % d) := by
        rintro ⟨hdiv, hmod⟩
        apply hne
        have h1 := Nat.div_add_mod (U.indexOf u) d
        have h2 := Nat.div_add_mod i d
        rw [hdiv, hmod] at h1
        exact h1.symm.trans h2
      have hmem : (U[i] ∈ t) ↔ (U[i] ∈ u :: t) := by
        rw [List.mem_cons]
        exact ⟨Or.inr, fun h => h.elim (fun h' => absurd h'.symm he) id⟩
      cases hf : fetch u with
      | none =>
        simp only [hf, Option.map_none']
        rw [iht]
        exact if_congr hmem rfl rfl
      | some img =>
        simp only [hf, Option.map_some']
        rw [List.filter_cons, if_neg (by simpa using hcell), iht]
        exact if_congr hmem rfl rfl

/-- Cell lookup in the composed draw log returns exactly the fetch result
of the tile generated at that row-major index. -/
lemma cellAt_drawLog {Img : Type} (fetch : String → Option Img) (d : Nat)
    (U : List String) (hU : U.Nodup) (i : Nat) (hi : i < U.length) :
    cellAt (U.filterMap (fun url => (fetch url).map
        (fun img => (U.indexOf url / d, U.indexOf url % d, img)))) (i / d) (i % d) =
      fetch U[i] := by
  unfold cellAt
  rw [filterMap_filter_cell fetch d U hU i hi U hU (fun _ hu => hu)]
  rw [if_pos (List.getElem_mem hi)]
  cases fetch U[i] <;> simp

/-- C6: for every face composition with grid dimension above 1 and every
pattern of per-tile success and failure, `loadTiledTexture` fulfils (never
rejects on tile failures) with a `gridDim`-cell-square canvas in which the
tile of row-major generation index i sits at the transposed cell
(x, y) = (i / gridDim, i mod gridDim) — i.e. pixel offsets
x = row·512, y = col·512 — when it succeeded, and that cell reads back as
the default blank state when it failed. The draw log is a pure function of
the fetch oracle, so the raster does not depend on tile completion
order. -/
theorem loadTiledTexture_tileFailure_spec {Img : Type} (fetch : String → Option Img)
    (sweepUuid : String) (res : TextureResolution) (face : Nat) (basePath : String)
    (hgrid : 1 < getTilesPerSide res) :
    ∃ draws : List (Nat × Nat × Img),
      loadTiledTexture fetch (getTilePaths sweepUuid res face basePath)
          (getTilesPerSide res) =
        some ⟨.canvas (getTilesPerSide res) draws, true, false⟩ ∧
      (getTilePaths sweepUuid res face basePath).length =
        getTilesPerSide res * getTilesPerSide res ∧
      ∀ (i : Nat) (url : String),
        (getTilePaths sweepUuid res face basePath)[i]? = some url →
        cellAt draws (i / getTilesPerSide res) (i % getTilesPerSide res) = fetch url := by
  refine ⟨_, loadTiledTexture_canvas fetch _ _ (by omega), getTilePaths_length _ _ _ _, ?_⟩
  intro i url h
  have hlt : i < (getTilePaths sweepUuid res face basePath).length :=
    (List.getElem?_eq_some.mp h).1
  have hurl : (getTilePaths sweepUuid res face basePath)[i] = url := by
    have := List.getElem?_eq_getElem hlt
    rw [h] at this
    exact (Option.some.injEq _ _).mp this.symm
  rw [← hurl]
  exact cellAt_drawLog fetch (getTilesPerSide res) _
    (getTilePaths_nodup sweepUuid res face basePath) i hlt

/-- Witness for C6: a 2×2 face in which exactly the tile at generation
index 1 (row 0, col 1) fails. -/
theorem loadTiledTexture_tileFailure_spec_witness :
    1 < getTilesPerSide .r1k ∧
    ∃ draws : List (Nat × Nat × Nat),
      loadTiledTexture
          (fun u => if u = "B/panoramas/ab/1k_face0_0_1.jpg" then none else some 1)
          (getTilePaths "ab" .r1k 0 "B") (getTilesPerSide .r1k) =
        some ⟨.canvas (getTilesPerSide .r1k) draws, true, false⟩ ∧
      (getTilePaths "ab" .r1k 0 "B").length = getTilesPerSide .r1k * getTilesPerSide .r1k ∧
      ∀ (i : Nat) (url : String), (getTilePaths "ab" .r1k 0 "B")[i]? = some url →
        cellAt draws (i / getTilesPerSide .r1k) (i % getTilesPerSide .r1k) =
          (fun u => if u = "B/panoramas/ab/1k_face0_0_1.jpg" then none else some 1) url :=
  ⟨by decide, loadTiledTexture_tileFailure_spec
    (fun u => if u = "B/panoramas/ab/1k_face0_0_1.jpg" then none else some 1)
    "ab" .r1k 0 "B" (by decide)⟩

/-! ## Claim C9 — forced-low preview and upgrade scheduling -/

/-- Mesh teardown performs no network fetch. -/
lemma fetch_not_mem_disposeMeshActions {Img : Type} (u : String)
    (r : TextureResolution) (m : PanoMesh Img) :
    ControllerAction.fetchCubemap u r ∉ disposeMeshActions m := by
  unfold disposeMeshActions
  simp [List.mem_flatMap]

/-- The main body's trace, by cases on the prior mesh and the preview
fetch result. -/
lemma loadPanoramaMain_trace_eq {Img : Type} [DecidableEq Img]
    (fetch : String → Option Img) (sweepUuid : String) (target : TextureResolution)
    (meshRef0 : Option (PanoMesh Img)) (scene0 : List (PanoMesh Img)) :
    (loadPanoramaMain fetch sweepUuid target meshRef0 scene0).trace =
      (match meshRef0 with
        | some m => disposeMeshActions m
        | none => []) ++
      (match loadCubemapTextures fetch sweepUuid .r512 defaultBasePath with
        | none => [ControllerAction.fetchCubemap sweepUuid .r512, .logPreviewError]
        | some textures =>
            [ControllerAction.fetchCubemap sweepUuid .r512,
              .sceneAdd ⟨50, textures.map (fun t => ⟨t, true⟩)⟩] ++
              (if target ≠ .r512 then [.scheduleUpgrade sweepUuid target] else [])) := by
  cases meshRef0 <;>
    cases hload : loadCubemapTextures fetch sweepUuid .r512 defaultBasePath <;>
    simp [loadPanoramaMain, hload]

/-- The main body schedules the upgrade timer exactly when the preview
fetch succeeded and the requested tier is not 512. -/
lemma loadPanoramaMain_upgradeScheduled {Img : Type} [DecidableEq Img]
    (fetch : String → Option Img) (sweepUuid : String) (target : TextureResolution)
    (meshRef0 : Option (PanoMesh Img)) (scene0 : List (PanoMesh Img)) :
    (loadPanoramaMain fetch sweepUuid target meshRef0 scene0).upgradeScheduled =
      (match loadCubemapTextures fetch sweepUuid .r512 defaultBasePath with
        | none => false
        | some _ => decide (target ≠ .r512)) := by
  cases meshRef0 <;>
    cases hload : loadCubemapTextures fetch sweepUuid .r512 defaultBasePath <;>
    simp [loadPanoramaMain, hload]

/-- C9 (amended): every cubemap fetch issued by the `loadPanorama` main
body is for tier 512 whatever the requested tier, and one such fetch is
always issued; when the preview load succeeds, the background upgrade
timer is scheduled iff the requested tier is not 512 (the original claim's
plain "iff" fails when the preview load itself fails — see the
counterexample — since the scheduling line is only reached on the success
path); for a requested tier of 512 no upgrade timer is ever scheduled,
unconditionally. -/
theorem loadPanorama_preview_spec {Img : Type} [DecidableEq Img]
    (fetch : String → Option Img) (sweepUuid : String) (target : TextureResolution)
    (meshRef0 : Option (PanoMesh Img)) (scene0 : List (PanoMesh Img)) :
    (∀ (u : String) (r : TextureResolution),
      ControllerAction.fetchCubemap u r ∈
          (loadPanoramaMain fetch sweepUuid target meshRef0 scene0).trace →
        u = sweepUuid ∧ r = .r512) ∧
    ControllerAction.fetchCubemap sweepUuid .r512 ∈
      (loadPanoramaMain fetch sweepUuid target meshRef0 scene0).trace ∧
    (loadCubemapTextures fetch sweepUuid .r512 defaultBasePath ≠ none →
      ((loadPanoramaMain fetch sweepUuid target meshRef0 scene0).upgradeScheduled = true ↔
        target ≠ .r512)) ∧
    (target = .r512 →
      (loadPanoramaMain fetch sweepUuid target meshRef0 scene0).upgradeScheduled = false) := by
  refine ⟨?_, ?_, ?_, ?_⟩
  · intro u r hmem
    rw [loadPanoramaMain_trace_eq] at hmem
    rcases List.mem_append.mp hmem with h | h
    · cases meshRef0 with
      | none => simp at h
      | some m => exact absurd h (fetch_not_mem_disposeMeshActions u r m)
    · cases hload : loadCubemapTextures fetch sweepUuid .r512 defaultBasePath with
      | none =>
        rw [hload] at h
        simpa using h
      | some texs =>
        rw [hload] at h
        rcases List.mem_append.mp h with h' | h'
        · simpa using h'
        · by_cases ht : target = TextureResolution.r512 <;> simp [ht] at h'
  · rw [loadPanoramaMain_trace_eq]
    refine List.mem_append.mpr (Or.inr ?_)
    cases hload : loadCubemapTextures fetch sweepUuid .r512 defaultBasePath <;> simp
  · intro hne
    rw [loadPanoramaMain_upgradeScheduled]
    cases hload : loadCubemapTextures fetch sweepUuid .r512 defaultBasePath with
    | none => exact absurd hload hne
    | some texs => simp
  · intro ht
    rw [loadPanoramaMain_upgradeScheduled]
    cases hload : loadCubemapTextures fetch sweepUuid .r512 defaultBasePath <;> simp [ht]

/-- Counterexample to C9 as stated: when the preview load fails (here the
fetch oracle rejects every URL) and the requested tier is 2k, no upgrade
timer is scheduled even though the requested tier is not low, falsifying
the unconditional "scheduled iff the requested tier is not low". -/
theorem loadPanorama_preview_counterexample :
    loadCubemapTextures (fun _ => (none : Option Nat)) "A" .r512 defaultBasePath = none ∧
    TextureResolution.r2k ≠ .r512 ∧
    (loadPanoramaMain (fun _ => (none : Option Nat)) "A" .r2k none []).upgradeScheduled
      = false := by
  exact ⟨by decide, by decide, by decide⟩

/-- Witness for C9: with an all-succeeding fetch the 2k request schedules
the upgrade and the 512 request does not. -/
theorem loadPanorama_preview_spec_witness :
    ((loadPanoramaMain (fun _ => some (0 : Nat)) "A" .r2k none []).upgradeScheduled = true ↔
      TextureResolution.r2k ≠ .r512) ∧
    (loadPanoramaMain (fun _ => some (0 : Nat)) "A" .r512 none []).upgradeScheduled = false :=
  ⟨(loadPanorama_preview_spec (fun _ => some (0 : Nat)) "A" .r2k none []).2.2.1 (by decide),
    (loadPanorama_preview_spec (fun _ => some (0 : Nat)) "A" .r512 none []).2.2.2 rfl⟩

/-! ## Claim C1 — behaviour on cubemap load failure -/

/-- C1 (amended): a failed background-upgrade cubemap load leaves the
displayed mesh completely untouched — the trace is just the fetch and the
logged error, the mesh reference is unchanged, and no retry is issued.
A failed *preview* load, however, does not preserve the prior mesh: the
main body removes the previously displayed mesh from the scene and
disposes it *before* awaiting the preview fetch, so when that fetch fails
(error only logged, no retry) the scene is left without a panorama mesh
and `meshRef` still points at the already-disposed mesh. -/
theorem cubemapFailure_spec {Img : Type} [DecidableEq Img] :
    (∀ (sweepUuid : String) (target : TextureResolution) (env : UpgradeEnv Img),
      env.check1Sweep = some sweepUuid → env.check1Res = some target →
      env.fetchResult = none →
      upgradeBody sweepUuid target env =
        ([.fetchCubemap sweepUuid target, .logUpgradeError], env.meshAtApply)) ∧
    (∀ (fetch : String → Option Img) (sweepUuid : String) (target : TextureResolution)
        (m0 : PanoMesh Img) (scene0 : List (PanoMesh Img)),
      loadCubemapTextures fetch sweepUuid .r512 defaultBasePath = none →
      loadPanoramaMain fetch sweepUuid target (some m0) scene0 =
        ⟨disposeMeshActions m0 ++ [.fetchCubemap sweepUuid .r512, .logPreviewError],
          some m0, scene0.erase m0, false⟩) := by
  constructor
  · intro sweepUuid target env h1 h2 hfail
    simp [upgradeBody, h1, h2, hfail]
  · intro fetch sweepUuid target m0 scene0 hfail
    simp [loadPanoramaMain, hfail]

/-- Counterexample to C1 as stated: a failed preview load (rejecting fetch
oracle) with a previously displayed mesh leaves the scene empty — the
prior mesh does not remain attached, and the scene is left without a
panorama mesh. -/
theorem cubemapFailure_counterexample :
    (loadPanoramaMain (fun _ => (none : Option Nat)) "B" .r512
        (some ⟨50, [⟨⟨.single 1, true, true⟩, true⟩]⟩)
        [⟨50, [⟨⟨.single 1, true, true⟩, true⟩]⟩]).scene = [] ∧
    ControllerAction.sceneRemove ⟨50, [⟨⟨.single 1, true, true⟩, true⟩]⟩ ∈
      (loadPanoramaMain (fun _ => (none : Option Nat)) "B" .r512
        (some ⟨50, [⟨⟨.single 1, true, true⟩, true⟩]⟩)
        [⟨50, [⟨⟨.single 1, true, true⟩, true⟩]⟩]).trace := by
  exact ⟨by decide, by decide⟩

/-- Witness for C1: a concrete failed upgrade leaves the concrete mesh in
place, and a concrete failed preview empties the single-mesh scene. -/
theorem cubemapFailure_spec_witness :
    upgradeBody "A" .r2k
        (⟨some "A", some .r2k, none, some "A", some .r2k,
          some ⟨50, [⟨⟨.single 1, true, true⟩, true⟩]⟩⟩ : UpgradeEnv Nat) =
      ([.fetchCubemap "A" .r2k, .logUpgradeError],
        some ⟨50, [⟨⟨.single 1, true, true⟩, true⟩]⟩) ∧
    loadPanoramaMain (fun _ => (none : Option Nat)) "B" .r512
        (some ⟨50, []⟩) [⟨50, []⟩] =
      ⟨disposeMeshActions ⟨50, []⟩ ++ [.fetchCubemap "B" .r512, .logPreviewError],
        some ⟨50, []⟩, ([⟨50, []⟩] : List (PanoMesh Nat)).erase ⟨50, []⟩, false⟩ :=
  ⟨cubemapFailure_spec.1 "A" .r2k _ rfl rfl rfl,
    cubemapFailure_spec.2 (fun _ => (none : Option Nat)) "B" .r512 ⟨50, []⟩ [⟨50, []⟩]
      (by decide)⟩

/-! ## Claim C2 — staleness discard -/

/-- C2 (amended): when the originally requested (identifier, tier) pair no
longer matches the current refs at either staleness check, the upgrade's
result is discarded: the mesh reference is unchanged and the trace
contains no scene mutation and no disposal whatsoever — in particular the
newly loaded textures are *not* disposed (the source simply drops them on
the stale path), contrary to the claim's "dispose" wording. Since no
`setMaterials` occurs, the displayed mesh keeps the materials of the
latest applied request: after (A, high) then (B, low), B's textures stay
and A's never attach. -/
theorem upgrade_stale_discard_spec {Img : Type} [DecidableEq Img]
    (sweepUuid : String) (target : TextureResolution) (env : UpgradeEnv Img)
    (hstale : ¬(env.check1Sweep = some sweepUuid ∧ env.check1Res = some target) ∨
      ¬(env.check2Sweep = some sweepUuid ∧ env.check2Res = some target)) :
    (upgradeBody sweepUuid target env).2 = env.meshAtApply ∧
    ((upgradeBody sweepUuid target env).1.any
      (fun a => a.mutatesScene || a.isDispose)) = false := by
  unfold upgradeBody
  by_cases h1 : env.check1Sweep ≠ some sweepUuid ∨ env.check1Res ≠ some target
  · rw [if_pos h1]
    exact ⟨rfl, rfl⟩
  · rw [if_neg h1]
    push_neg at h1
    have h2 : env.check2Sweep ≠ some sweepUuid ∨ env.check2Res ≠ some target := by
      rcases hstale with h | h
      · exact absurd ⟨h1.1, h1.2⟩ h
      · rcases Decidable.not_and_iff_or_not.mp h with h' | h'
        · exact Or.inl h'
        · exact Or.inr h'
    cases env.fetchResult with
    | none => exact ⟨rfl, rfl⟩
    | some ts =>
      dsimp only
      rw [if_pos h2]
      exact ⟨rfl, rfl⟩

/-- Counterexample to C2 as stated: a fetch that succeeds but goes stale
during the network wait (refs moved to (B, 512)) produces a trace with no
`disposeTexture` at all — the claim's "the newly loaded textures are
disposed" is false; the mesh is nevertheless untouched. -/
theorem upgrade_stale_discard_counterexample :
    (upgradeBody "A" .r2k
        (⟨some "A", some .r2k, some [⟨.single 7, true, true⟩], some "B", some .r512,
          some ⟨50, [⟨⟨.single 1, true, true⟩, true⟩]⟩⟩ : UpgradeEnv Nat)).1 =
      [.fetchCubemap "A" .r2k, .logUpgradeCancelledPost] ∧
    ((upgradeBody "A" .r2k
        (⟨some "A", some .r2k, some [⟨.single 7, true, true⟩], some "B", some .r512,
          some ⟨50, [⟨⟨.single 1, true, true⟩, true⟩]⟩⟩ : UpgradeEnv Nat)).1.any
      ControllerAction.isDisposeTexture) = false ∧
    (upgradeBody "A" .r2k
        (⟨some "A", some .r2k, some [⟨.single 7, true, true⟩], some "B", some .r512,
          some ⟨50, [⟨⟨.single 1, true, true⟩, true⟩]⟩⟩ : UpgradeEnv Nat)).2 =
      some ⟨50, [⟨⟨.single 1, true, true⟩, true⟩]⟩ := by
  exact ⟨by decide, by decide, by decide⟩

/-- Witness for C2: the same stale-after-fetch scenario through the
amended theorem — mesh reference unchanged, no mutating or disposing
action. -/
theorem upgrade_stale_discard_spec_witness :
    (upgradeBody "A" .r2k
        (⟨some "A", some .r2k, some [⟨.single 7, true, true⟩], some "B", some .r512,
          some ⟨50, [⟨⟨.single 1, true, true⟩, true⟩]⟩⟩ : UpgradeEnv Nat)).2 =
      some ⟨50, [⟨⟨.single 1, true, true⟩, true⟩]⟩ ∧
    ((upgradeBody "A" .r2k
        (⟨some "A", some .r2k, some [⟨.single 7, true, true⟩], some "B", some .r512,
          some ⟨50, [⟨⟨.single 1, true, true⟩, true⟩]⟩⟩ : UpgradeEnv Nat)).1.any
      (fun a => a.mutatesScene || a.isDispose)) = false :=
  upgrade_stale_discard_spec "A" .r2k _ (Or.inr (by decide))

/-! ## Claim C3 — material swap ordering -/

/-- C3 (amended): on a successful, still-current upgrade with a displayed
mesh, the new materials are built from the newly loaded textures purely
(before any disposal side effect), the geometry is not rebuilt, and the
trace is exactly: the fetch, then the disposal of every old material and
its texture, then the attachment of the new materials — i.e. the source
disposes the old materials *before* assigning the new ones (construction
precedes disposal, but attachment follows it), contrary to the claim's
attach-before-dispose ordering. -/
theorem upgrade_swap_order_spec {Img : Type} [DecidableEq Img]
    (sweepUuid : String) (target : TextureResolution) (env : UpgradeEnv Img)
    (h1s : env.check1Sweep = some sweepUuid) (h1r : env.check1Res = some target)
    (h2s : env.check2Sweep = some sweepUuid) (h2r : env.check2Res = some target)
    (ts : List (LoadedTexture Img)) (hts : env.fetchResult = some ts)
    (mesh : PanoMesh Img) (hm : env.meshAtApply = some mesh) :
    upgradeBody sweepUuid target env =
      ([.fetchCubemap sweepUuid target] ++
        mesh.materials.flatMap (fun mat => [.disposeTexture mat.map, .disposeMaterial mat]) ++
        [.setMaterials (ts.map (fun t => ⟨t, true⟩))],
      some { mesh with materials := ts.map (fun t => ⟨t, true⟩) }) ∧
    ({ mesh with materials := ts.map (fun t => (⟨t, true⟩ : MeshBasicMaterial Img)) }
      : PanoMesh Img).geometrySize = mesh.geometrySize := by
  refine ⟨?_, rfl⟩
  simp [upgradeBody, h1s, h1r, h2s, h2r, hts, hm]

/-- Counterexample to C3 as stated: in a concrete successful upgrade the
first disposal action strictly precedes the `setMaterials` attachment
(and both occur), so the new materials are not attached before the old
ones are disposed. -/
theorem upgrade_swap_order_counterexample :
    ((upgradeBody "A" .r2k
        (⟨some "A", some .r2k, some [⟨.single 2, true, true⟩], some "A", some .r2k,
          some ⟨50, [⟨⟨.single 1, true, true⟩, true⟩]⟩⟩ : UpgradeEnv Nat)).1.findIdx
      ControllerAction.isDispose <
    (upgradeBody "A" .r2k
        (⟨some "A", some .r2k, some [⟨.single 2, true, true⟩], some "A", some .r2k,
          some ⟨50, [⟨⟨.single 1, true, true⟩, true⟩]⟩⟩ : UpgradeEnv Nat)).1.findIdx
      ControllerAction.isSetMaterials) ∧
    ((upgradeBody "A" .r2k
        (⟨some "A", some .r2k, some [⟨.single 2, true, true⟩], some "A", some .r2k,
          some ⟨50, [⟨⟨.single 1, true, true⟩, true⟩]⟩⟩ : UpgradeEnv Nat)).1.any
      ControllerAction.isSetMaterials) = true ∧
    ((upgradeBody "A" .r2k
        (⟨some "A", some .r2k, some [⟨.single 2, true, true⟩], some "A", some .r2k,
          some ⟨50, [⟨⟨.single 1, true, true⟩, true⟩]⟩⟩ : UpgradeEnv Nat)).1.any
      ControllerAction.isDispose) = true := by
  exact ⟨by decide, by decide, by decide⟩

/-- Witness for C3: the amended dispose-then-attach trace at the same
concrete successful upgrade. -/
theorem upgrade_swap_order_spec_witness :
    upgradeBody "A" .r2k
        (⟨some "A", some .r2k, some [⟨.single 2, true, true⟩], some "A", some .r2k,
          some ⟨50, [⟨⟨.single 1, true, true⟩, true⟩]⟩⟩ : UpgradeEnv Nat) =
      ([.fetchCubemap "A" .r2k] ++
        ([⟨⟨.single 1, true, true⟩, true⟩] : List (MeshBasicMaterial Nat)).flatMap
          (fun mat => [.disposeTexture mat.map, .disposeMaterial mat]) ++
        [.setMaterials ([⟨.single 2, true, true⟩].map
          (fun t => (⟨t, true⟩ : MeshBasicMaterial Nat)))],
      some ⟨50, [⟨.single 2, true, true⟩].map (fun t => ⟨t, true⟩)⟩) :=
  (upgrade_swap_order_spec "A" .r2k _ rfl rfl rfl rfl _ rfl _ rfl).1

end Panorama
